import Mathlib

/-!
Verification development for the magnet-crawler repository
(src/crawler.py, src/pan115_manager.py, src/app.py).

The Python code is shallowly embedded as executable Lean functions.
External collaborators (the Selenium page fetcher and the 115 offline
endpoint) are abstracted as oracles passed in as function arguments; the
filesystem (tid files, the success-record log, CSV columns) is modelled
as explicit lists of strings.  Machine-level concerns (threads, real
time) are modelled as sequential traces of events.
-/

namespace MagnetApp

/-! ## Python string primitives

Character-level models of the Python string operations the code uses:
`str.strip`, `str.split`, `str.isdigit`, `in` (substring), `startswith`. -/

/-- Whitespace set of Python `str.strip` (ASCII part, which is all the
code ever feeds it: timestamps, tids, magnet URIs). -/
def pyIsSpace (c : Char) : Bool :=
  c = ' ' || c = '\t' || c = '\n' || c = '\r' || c = '\x0b' || c = '\x0c'

/-- Python `str.strip()` on a character list. -/
def pyStrip (l : List Char) : List Char :=
  ((l.dropWhile pyIsSpace).reverse.dropWhile pyIsSpace).reverse

/-- Python `str.strip()` at the `String` level. -/
def pyStripS (s : String) : String := ⟨pyStrip s.data⟩

/-- Python `str.split(sep)` for a one-character separator: splits at every
occurrence, never merging adjacent separators. -/
def splitOnChar (c : Char) : List Char → List (List Char)
  | [] => [[]]
  | x :: xs =>
    if x = c then [] :: splitOnChar c xs
    else
      match splitOnChar c xs with
      | [] => [[x]]
      | h :: t => (x :: h) :: t

/-- Python `sub in s` (substring containment). -/
def containsSub (p l : List Char) : Bool :=
  l.tails.any (fun t => p.isPrefixOf t)

theorem splitOnChar_ne_nil (c : Char) (l : List Char) : splitOnChar c l ≠ [] := by
  cases l with
  | nil => simp [splitOnChar]
  | cons x xs =>
    simp only [splitOnChar]
    split
    · simp
    · split <;> simp

theorem splitOnChar_no_sep (c : Char) (a : List Char) (ha : c ∉ a) :
    splitOnChar c a = [a] := by
  induction a with
  | nil => rfl
  | cons x xs ih =>
    simp only [List.mem_cons, not_or] at ha
    simp only [splitOnChar]
    rw [if_neg (fun h => ha.1 h.symm), ih ha.2]

theorem splitOnChar_append_sep (c : Char) (a rest : List Char) (ha : c ∉ a) :
    splitOnChar c (a ++ c :: rest) = a :: splitOnChar c rest := by
  induction a with
  | nil =>
    simp [splitOnChar]
  | cons x xs ih =>
    simp only [List.mem_cons, not_or] at ha
    simp only [List.cons_append, splitOnChar]
    rw [if_neg (fun h => ha.1 h.symm), List.append_eq, ih ha.2]

/-! ## Crawler model (src/crawler.py)

Identifiers ("tids") are strings; files are lists of lines.  The
Selenium fetch of a single tid page is abstracted away: the model keeps
the list of identifiers dispatched to `_crawl_tids_magnets`, in dispatch
order, one entry per produced result record (with no stop signal and no
worker exception the source appends exactly one result dict per tid). -/

/-- Value of Python `int(s)` on an all-digit string. -/
def digitsToNat (l : List Char) : ℕ :=
  l.foldl (fun n c => n * 10 + (c.toNat - 48)) 0

/-- Numeric value of a tid: `int(tid) if tid.isdigit() else 0`
(`WebCrawler._compare_tids`, also the sort key in
`_load_tids_from_file` / `_save_tids_to_file`). -/
def tidNum (s : String) : ℕ :=
  if s ≠ "" && s.data.all Char.isDigit then digitsToNat s.data else 0

/-- Model of `WebCrawler._compare_tids`: signed difference of the numeric values. -/
def compare_tids (t1 t2 : String) : ℤ := (tidNum t1 : ℤ) - (tidNum t2 : ℤ)

/-- Stable insertion keeping a list sorted descending by `key`
(an element is inserted before the first strictly smaller key, hence
after equal keys, matching Python's stable `list.sort(reverse=True)`). -/
def insertDescBy (key : String → ℕ) (x : String) : List String → List String
  | [] => [x]
  | y :: ys => if key y ≤ key x then x :: y :: ys else y :: insertDescBy key x ys

/-- Stable descending sort by `key`, mirror of
`tids.sort(key=..., reverse=True)`. -/
def sortDescBy (key : String → ℕ) : List String → List String
  | [] => []
  | x :: xs => insertDescBy key x (sortDescBy key xs)

/-- Model of `WebCrawler._load_tids_from_file`, with the file's lines as input:
strip each line, keep the non-empty all-digit ones, sort numerically
descending. -/
def load_tids (lines : List String) : List String :=
  sortDescBy tidNum
    ((lines.map pyStripS).filter (fun t => t ≠ "" && t.data.all Char.isDigit))

/-- State threaded through the per-forum loop of
`WebCrawler.crawl_magnets_incremental`: the local `max_tid` variable and
the identifiers dispatched so far (one result record each). -/
structure IncState where
  max_tid : String
  dispatched : List String
  deriving DecidableEq, Repr

/-- Dispatch phase for one forum of `crawl_magnets_incremental`
(src/crawler.py lines 663-685): if there are new tids, sort them
descending, dispatch them all, and advance `max_tid` to the top one only
when `_compare_tids(new_max_tid, max_tid) > 0`. -/
def inc_dispatch (st : IncState) (new_tids : List String) : IncState :=
  if new_tids = [] then st
  else
    match sortDescBy tidNum new_tids with
    | [] => st
    | top :: rest =>
      { max_tid := if 0 < compare_tids top st.max_tid then top else st.max_tid,
        dispatched := st.dispatched ++ (top :: rest) }

/-- One iteration of the phase-2 loop of `crawl_magnets_incremental`
(src/crawler.py lines 633-685) for a single forum, given the content of
its tid file after the phase-1 refresh, with the stop flag never set:
load the tids, take them all when `max_tid == '0'` and otherwise the
ones strictly greater, then dispatch. -/
def inc_forum_step (st : IncState) (forumLines : List String) : IncState :=
  if load_tids forumLines = [] then st
  else
    inc_dispatch st
      (if st.max_tid = "0" then load_tids forumLines
       else (load_tids forumLines).filter (fun t => 0 < compare_tids t st.max_tid))

/-- Model of `WebCrawler.crawl_magnets_incremental` over all enabled forums
(uncancelled, no worker errors): folds the per-forum step from the
persisted watermark; the final `max_tid` is the value written back to the
configuration at the end of a successful run. -/
def crawl_magnets_incremental (forums : List (List String)) (max_tid0 : String) :
    IncState :=
  forums.foldl inc_forum_step ⟨max_tid0, []⟩

/-- One iteration of the per-forum loop of `WebCrawler.crawl_magnets_full`
(src/crawler.py lines 541-562) restricted to its effect on `max_tid`:
when the loaded tid list is non-empty, `self.config['max_tid']` is
overwritten with its first (largest) element, unconditionally. -/
def full_forum_step (max_tid : String) (forumLines : List String) : String :=
  match load_tids forumLines with
  | [] => max_tid
  | top :: _ => top

/-- The `max_tid` recorded in the configuration after a successful
`crawl_magnets_full` run. -/
def crawl_magnets_full_max_tid (forums : List (List String)) (max_tid0 : String) :
    String :=
  forums.foldl full_forum_step max_tid0

/-! ### Crawl statistics (`WebCrawler._crawl_tids_magnets`) -/

/-- The `self.stats` counters updated under `self._lock`. -/
structure CrawlStats where
  total_processed : ℕ
  success_count : ℕ
  error_count : ℕ
  deriving DecidableEq, Repr

/-- How one dispatched tid ends: its result dict has `success=True`
(`ok`), `success=False` (`failed`), or waiting on its future raised
(`raised`). -/
inductive TidOutcome
  | ok
  | failed
  | raised
  deriving DecidableEq, Repr

/-- The statistics update `_crawl_tids_magnets` performs for one tid:
lines 768-774 for a returned result (`total_processed += 1` then
`success_count` or `error_count`), lines 799-801 for an exception
(`total_processed += 1` and `error_count += 1`). -/
def record_outcome (s : CrawlStats) : TidOutcome → CrawlStats
  | .ok => ⟨s.total_processed + 1, s.success_count + 1, s.error_count⟩
  | .failed => ⟨s.total_processed + 1, s.success_count, s.error_count + 1⟩
  | .raised => ⟨s.total_processed + 1, s.success_count, s.error_count + 1⟩

/-- The statistics after `_crawl_tids_magnets` has processed a sequence of
tid outcomes. -/
def run_stats (s : CrawlStats) (os : List TidOutcome) : CrawlStats :=
  os.foldl record_outcome s

/-! ## Claim theorems on the crawler -/

theorem tidNum_lt_of_compare_pos {t m : String} (h : 0 < compare_tids t m) :
    tidNum m < tidNum t := by
  unfold compare_tids at h
  omega

theorem inc_dispatch_mono (st : IncState) (nt : List String) :
    tidNum st.max_tid ≤ tidNum (inc_dispatch st nt).max_tid := by
  unfold inc_dispatch
  split
  · exact Nat.le_refl _
  · rcases h : sortDescBy tidNum nt with _ | ⟨top, rest⟩
    · exact Nat.le_refl _
    · show tidNum st.max_tid ≤
        tidNum (if 0 < compare_tids top st.max_tid then top else st.max_tid)
      split
      · next hc => exact Nat.le_of_lt (tidNum_lt_of_compare_pos hc)
      · exact Nat.le_refl _

theorem inc_forum_step_mono (st : IncState) (f : List String) :
    tidNum st.max_tid ≤ tidNum (inc_forum_step st f).max_tid := by
  unfold inc_forum_step
  split
  · exact Nat.le_refl _
  · exact inc_dispatch_mono st _

theorem foldl_inc_mono (forums : List (List String)) (st : IncState) :
    tidNum st.max_tid ≤ tidNum (forums.foldl inc_forum_step st).max_tid := by
  induction forums generalizing st with
  | nil => exact Nat.le_refl _
  | cons f fs ih =>
    exact Nat.le_trans (inc_forum_step_mono st f) (ih (inc_forum_step st f))

/-- C1 (amended): across a successful incremental run
(`crawl_magnets_incremental`), the persisted watermark `max_tid` is
monotonically non-decreasing in numeric value, whatever identifiers the
run discovers: every update is guarded by `_compare_tids(new_max_tid,
max_tid) > 0`.  (The full-crawl path does not share this guard; see the
counterexample.) -/
theorem incremental_watermark_monotone (forums : List (List String))
    (max_tid0 : String) :
    tidNum max_tid0 ≤ tidNum (crawl_magnets_incremental forums max_tid0).max_tid :=
  foldl_inc_mono forums ⟨max_tid0, []⟩

/-- C1 counterexample: a successful `crawl_magnets_full` run whose (single
enabled) forum tid file holds only the identifier 50, started with
persisted watermark 100, ends with `max_tid = "50"`: the recorded
watermark regresses, refuting the claim for full runs
(src/crawler.py lines 559-562 assign `self.config['max_tid'] = tids[0]`
with no comparison against the previous value). -/
theorem full_crawl_regresses_watermark :
    crawl_magnets_full_max_tid [["50"]] "100" = "50" ∧
      tidNum (crawl_magnets_full_max_tid [["50"]] "100") < tidNum "100" := by
  constructor
  · rfl
  · decide

/-- C2: in incremental mode with watermark `"0"`, a forum whose tid file
yields the identifiers 5, 3, 9 has all three treated as new; they are
dispatched in descending numeric order 9, 5, 3 (one result record per
identifier, three in total) and the final watermark is `"9"`. -/
theorem incremental_first_run_scenario :
    crawl_magnets_incremental [["5", "3", "9"]] "0" =
        ⟨"9", ["9", "5", "3"]⟩ ∧
      (crawl_magnets_incremental [["5", "3", "9"]] "0").dispatched.length = 3 := by
  constructor
  · decide
  · decide

/-- C10: the counters of `_crawl_tids_magnets` keep
`total_processed = success_count + error_count` after every update: each
processed tid bumps `total_processed` exactly once and exactly one of
`success_count` / `error_count` exactly once, so the invariant is
preserved along any sequence of outcomes. -/
theorem crawl_stats_invariant (s : CrawlStats) (o : TidOutcome)
    (os : List TidOutcome)
    (h : s.total_processed = s.success_count + s.error_count) :
    (record_outcome s o).total_processed = s.total_processed + 1 ∧
      (record_outcome s o).success_count + (record_outcome s o).error_count =
        s.success_count + s.error_count + 1 ∧
      (run_stats s os).total_processed =
        (run_stats s os).success_count + (run_stats s os).error_count := by
  refine ⟨?_, ?_, ?_⟩
  · cases o <;> simp [record_outcome]
  · cases o <;> simp [record_outcome] <;> omega
  · unfold run_stats
    induction os generalizing s with
    | nil => exact h
    | cons o os ih =>
      simp only [List.foldl_cons]
      apply ih
      cases o <;> simp [record_outcome] <;> omega

/-- C10 witness: starting from zeroed statistics, processing one
successful, one failed and one raised tid keeps the invariant. -/
theorem crawl_stats_invariant_witness :
    (run_stats ⟨0, 0, 0⟩ [TidOutcome.ok, TidOutcome.failed, TidOutcome.raised]).total_processed =
      (run_stats ⟨0, 0, 0⟩ [TidOutcome.ok, TidOutcome.failed, TidOutcome.raised]).success_count +
        (run_stats ⟨0, 0, 0⟩ [TidOutcome.ok, TidOutcome.failed, TidOutcome.raised]).error_count :=
  (crawl_stats_invariant ⟨0, 0, 0⟩ TidOutcome.ok
    [TidOutcome.ok, TidOutcome.failed, TidOutcome.raised] rfl).2.2

/-! ## Submission pipeline model (src/pan115_manager.py)

The 115 offline endpoint (`client.offline.add`) is an oracle mapping the
submitted payload to an outcome: the returned dict has `state` truthy
(`ok`), `state` falsy with an error message (`fail`), or the call raises
(`raise`).  Every outbound interaction is also recorded in a sequential
trace of events, so that call counts and inter-call sleeps can be stated.
Progress callbacks, logging, and the interpolated counts inside the
human-readable `message` strings are elided. -/

/-- Outcome of one `offline.add` call. -/
inductive AddOutcome
  | ok
  | fail (msg : String)
  | raiseErr (msg : String)
  deriving DecidableEq, Repr

/-- Payload of one outbound call: a bulk chunk or a single magnet. -/
inductive Payload
  | bulk (items : List String)
  | item (m : String)
  deriving DecidableEq, Repr

/-- Observable pipeline events, in program order: client creation
(`get_client`), an outbound `offline.add` call, or a `time.sleep` (the
duration kept abstract in the same unit as `request_interval`, read as
milliseconds below). -/
inductive SubmitEvent
  | getClient
  | call (p : Payload)
  | sleepFor (n : ℕ)
  deriving DecidableEq, Repr

/-- The downstream endpoint, abstracted: outcome of a bulk add and of a
single-magnet add. -/
structure Offline where
  bulkAdd : List String → AddOutcome
  itemAdd : String → AddOutcome

/-- Model of `Pan115Manager._is_valid_magnet`: strip, must start with `magnet:?`
and contain `xt=` (the utf-8 encodability check never fails in this
model). -/
def is_valid_magnet (s : String) : Bool :=
  "magnet:?".data.isPrefixOf (pyStrip s.data) &&
    containsSub "xt=".data (pyStrip s.data)

/-- The consecutive slices `valid_magnets[i:i + batch_size]` taken by the
loop `for i in range(0, len(valid_magnets), batch_size)` in
`Pan115Manager.submit_batch_magnets` (lines 466-469; `process_cache_file`
lines 1168-1169 slice identically).  A zero cap, on which Python's
`range` would raise, yields no chunks. -/
def chunkListAux (cap : ℕ) : ℕ → List α → List (List α)
  | _, [] => []
  | 0, _ :: _ => []
  | fuel + 1, x :: xs =>
    if cap = 0 then []
    else (x :: xs).take cap :: chunkListAux cap fuel ((x :: xs).drop cap)

def chunkList (cap : ℕ) (l : List α) : List (List α) :=
  chunkListAux cap l.length l

/-- Accumulated outcome of `Pan115Manager._submit_magnets_individually`:
counters, the `failed_details` entries (the magnet and the error message;
the `_get_magnet_name` display formatting is elided), the event trace,
and the magnets passed to `_processed_magnets.add` /
`_save_success_record`. -/
structure IndOutcome where
  success_count : ℕ
  failed_count : ℕ
  failed_details : List (String × String)
  trace : List SubmitEvent
  marked : List String
  deriving DecidableEq, Repr

/-- Model of `Pan115Manager._submit_magnets_individually` (lines 545-587): one
`offline.add` call per magnet; on a truthy `state` the magnet is counted
and marked, otherwise it is counted failed with its error message; after
each non-raising call the loop sleeps `request_interval`; a raising call
is caught, counted failed, and reaches no sleep.  No item is ever
attempted a second time. -/
def submit_magnets_individually (itemAdd : String → AddOutcome) (interval : ℕ) :
    List String → IndOutcome
  | [] => ⟨0, 0, [], [], []⟩
  | m :: rest =>
    let r := submit_magnets_individually itemAdd interval rest
    match itemAdd m with
    | .ok =>
      ⟨r.success_count + 1, r.failed_count, r.failed_details,
        .call (.item m) :: .sleepFor interval :: r.trace, m :: r.marked⟩
    | .fail msg =>
      ⟨r.success_count, r.failed_count + 1, (m, msg) :: r.failed_details,
        .call (.item m) :: .sleepFor interval :: r.trace, r.marked⟩
    | .raiseErr msg =>
      ⟨r.success_count, r.failed_count + 1, (m, msg) :: r.failed_details,
        .call (.item m) :: r.trace, r.marked⟩

/-- The chunk loop of `submit_batch_magnets` (lines 466-519): one bulk
call per chunk; on a truthy `state` every member is counted and marked;
on a falsy `state` the chunk falls back to `_submit_magnets_individually`
and the loop still reaches the inter-chunk `time.sleep(request_interval)`
(skipped after the last chunk); on a raising bulk call the `except`
branch falls back likewise but skips the inter-chunk sleep. -/
def submit_batches (off : Offline) (interval : ℕ) :
    List (List String) → IndOutcome
  | [] => ⟨0, 0, [], [], []⟩
  | batch :: rest =>
    let r := submit_batches off interval rest
    let pause : List SubmitEvent := if rest = [] then [] else [.sleepFor interval]
    match off.bulkAdd batch with
    | .ok =>
      ⟨batch.length + r.success_count, r.failed_count, r.failed_details,
        .call (.bulk batch) :: (pause ++ r.trace), batch ++ r.marked⟩
    | .fail _ =>
      let ind := submit_magnets_individually off.itemAdd interval batch
      ⟨ind.success_count + r.success_count, ind.failed_count + r.failed_count,
        ind.failed_details ++ r.failed_details,
        .call (.bulk batch) :: (ind.trace ++ pause ++ r.trace),
        ind.marked ++ r.marked⟩
    | .raiseErr _ =>
      let ind := submit_magnets_individually off.itemAdd interval batch
      ⟨ind.success_count + r.success_count, ind.failed_count + r.failed_count,
        ind.failed_details ++ r.failed_details,
        .call (.bulk batch) :: (ind.trace ++ r.trace),
        ind.marked ++ r.marked⟩

/-- Return value of `submit_batch_magnets` / `process_csv_file` (the
result dict), together with the event trace and the marked magnets. -/
structure SubmitResult where
  success : Bool
  total : ℕ
  success_count : ℕ
  failed_count : ℕ
  failed_details : List (String × String)
  message : String
  trace : List SubmitEvent
  marked : List String
  deriving DecidableEq, Repr

/-- Model of `Pan115Manager.submit_batch_magnets` (lines 423-543): an empty input
returns immediately (before `get_client`) with a successful zero result;
otherwise the client is created, invalid magnets are filtered out, an
all-invalid input fails without any outbound call, and the valid magnets
are chunked by `batch_size` and submitted. -/
def submit_batch_magnets (off : Offline) (batch_size interval : ℕ)
    (magnet_links : List String) : SubmitResult :=
  if magnet_links = [] then
    ⟨true, 0, 0, 0, [], "没有磁力链接需要处理", [], []⟩
  else
    let valid_magnets := magnet_links.filter is_valid_magnet
    if valid_magnets = [] then
      ⟨false, magnet_links.length, 0, magnet_links.length, [],
        "没有有效的磁力链接", [.getClient], []⟩
    else
      let r := submit_batches off interval (chunkList batch_size valid_magnets)
      ⟨true, valid_magnets.length, r.success_count, r.failed_count,
        r.failed_details, "批量提交完成", .getClient :: r.trace, r.marked⟩

/-- The payloads of the outbound calls in a trace, in call order. -/
def callPayloads (tr : List SubmitEvent) : List Payload :=
  tr.filterMap (fun e =>
    match e with
    | .call p => some p
    | _ => none)

/-- Start times of the outbound calls in a trace: the clock starts at
`t`, each `sleepFor` advances it, and every call itself is instantaneous
(a lower bound on the real spacing, which the claims are about). -/
def callTimes : List SubmitEvent → ℕ → List ℕ
  | [], _ => []
  | .getClient :: rest, t => callTimes rest t
  | .sleepFor n :: rest, t => callTimes rest (t + n)
  | .call _ :: rest, t => t :: callTimes rest t

/-! ## Claim theorems on the submission pipeline -/

theorem chunkListAux_spec (cap : ℕ) (hcap : 0 < cap) :
    ∀ (fuel : ℕ) (l : List α), l.length ≤ fuel →
      (chunkListAux cap fuel l).length = (l.length + cap - 1) / cap ∧
        (∀ b ∈ chunkListAux cap fuel l, b.length ≤ cap) ∧
        (chunkListAux cap fuel l).flatten = l := by
  have hcap0 : cap ≠ 0 := Nat.pos_iff_ne_zero.mp hcap
  intro fuel
  induction fuel with
  | zero =>
    intro l hl
    have hnil : l = [] := List.length_eq_zero.mp (Nat.le_zero.mp hl)
    subst hnil
    have z : (cap - 1) / cap = 0 := Nat.div_eq_of_lt (by omega)
    simp [chunkListAux, z]
  | succ fuel ih =>
    intro l hl
    cases l with
    | nil =>
      have z : (cap - 1) / cap = 0 := Nat.div_eq_of_lt (by omega)
      simp [chunkListAux, z]
    | cons x xs =>
      rw [chunkListAux, if_neg hcap0]
      have hdrop : ((x :: xs).drop cap).length = (x :: xs).length - cap :=
        List.length_drop cap (x :: xs)
      have hlen : (x :: xs).length = xs.length + 1 := List.length_cons x xs
      have hrec := ih ((x :: xs).drop cap) (by simp only [hdrop, hlen] at *; omega)
      refine ⟨?_, ?_, ?_⟩
      · simp only [List.length_cons, hrec.1, hdrop]
        rcases Nat.lt_or_ge (xs.length + 1) cap with hlt | hge
        · have e1 : xs.length + 1 - cap = 0 := by omega
          have e2 : xs.length + 1 + cap - 1 = xs.length + cap := by omega
          rw [e1, e2, Nat.add_div_right _ hcap]
          have d1 : xs.length / cap = 0 := Nat.div_eq_of_lt (by omega)
          have z : (0 + cap - 1) / cap = 0 := Nat.div_eq_of_lt (by omega)
          omega
        · have e2 : xs.length + 1 + cap - 1 =
              (xs.length + 1 - cap + cap - 1) + cap := by omega
          rw [e2, Nat.add_div_right _ hcap]
      · intro b hb
        rcases List.mem_cons.mp hb with hb | hb
        · subst hb
          simp [List.length_take]
        · exact hrec.2.1 b hb
      · simp only [List.flatten_cons, hrec.2.2, List.take_append_drop]

/-- C3: `submit_batch_magnets` partitions its `valid_magnets` list into
exactly `ceil(N / batch_size)` consecutive chunks (`chunkList` is the
slice loop it runs), each of size at most `batch_size`, whose
concatenation is the original list — every item lands in exactly one
chunk. -/
theorem submit_batch_chunking (valid_magnets : List String) (batch_size : ℕ)
    (hcap : 0 < batch_size) :
    (chunkList batch_size valid_magnets).length =
        (valid_magnets.length + batch_size - 1) / batch_size ∧
      (∀ b ∈ chunkList batch_size valid_magnets, b.length ≤ batch_size) ∧
      (chunkList batch_size valid_magnets).flatten = valid_magnets :=
  chunkListAux_spec batch_size hcap valid_magnets.length valid_magnets
    (Nat.le_refl _)

/-- C3 witness: 5 items with cap 2 make 3 chunks of sizes 2, 2, 1 whose
concatenation is the input. -/
theorem submit_batch_chunking_witness :
    (0 : ℕ) < 2 ∧
      ((chunkList 2 ["a", "b", "c", "d", "e"]).length = (5 + 2 - 1) / 2 ∧
        (∀ b ∈ chunkList 2 ["a", "b", "c", "d", "e"], b.length ≤ 2) ∧
        (chunkList 2 ["a", "b", "c", "d", "e"]).flatten = ["a", "b", "c", "d", "e"]) :=
  ⟨by decide, submit_batch_chunking ["a", "b", "c", "d", "e"] 2 (by decide)⟩

/-- C9: `submit_batch_magnets` on an empty magnet list returns
`success=True`, `total=0`, `success_count=0`, `failed_count=0` with an
empty trace: no client is created and the downstream endpoint is never
contacted (the early return at lines 427-434 precedes `get_client`). -/
theorem submit_batch_empty (off : Offline) (batch_size interval : ℕ) :
    submit_batch_magnets off batch_size interval [] =
      ⟨true, 0, 0, 0, [], "没有磁力链接需要处理", [], []⟩ := rfl

theorem callPayloads_cons_call (p : Payload) (tr : List SubmitEvent) :
    callPayloads (.call p :: tr) = p :: callPayloads tr := rfl

theorem callPayloads_cons_sleep (n : ℕ) (tr : List SubmitEvent) :
    callPayloads (.sleepFor n :: tr) = callPayloads tr := rfl

/-- C4 (amended): in the per-item fallback
(`_submit_magnets_individually`) every magnet of the chunk is attempted
exactly once — the outbound call sequence is precisely one `offline.add`
per input item, in input order, with no retries and no backoff; every
failure (timeout, transient error, or authentication error alike) is
recorded once in `failed_details`, and the counters partition the
chunk. -/
theorem individual_submission_single_attempt (itemAdd : String → AddOutcome)
    (interval : ℕ) (items : List String) :
    callPayloads (submit_magnets_individually itemAdd interval items).trace =
        items.map Payload.item ∧
      (submit_magnets_individually itemAdd interval items).success_count +
          (submit_magnets_individually itemAdd interval items).failed_count =
        items.length ∧
      (submit_magnets_individually itemAdd interval items).failed_details.length =
        (submit_magnets_individually itemAdd interval items).failed_count := by
  induction items with
  | nil => exact ⟨rfl, rfl, rfl⟩
  | cons m rest ih =>
    rcases h : itemAdd m with _ | msg | msg <;>
      simp only [submit_magnets_individually, h] <;>
      refine ⟨?_, ?_, ?_⟩ <;>
      simp only [callPayloads_cons_call, callPayloads_cons_sleep, ih.1,
        List.map_cons, List.length_cons, ih.2.1, ih.2.2] <;>
      omega

/-- Endpoint behaviour for the C4 counterexample: the bulk call reports a
falsy `state` and every per-item call raises a timeout. -/
def timeout_offline : Offline :=
  ⟨fun _ => AddOutcome.fail "批量提交失败", fun _ => AddOutcome.raiseErr "Read timed out"⟩

/-- A syntactically valid magnet link. -/
def magnet_t : String := "magnet:?xt=urn:btih:0123456789abcdef0123456789abcdef01234567"

/-- C4 counterexample: submitting one valid magnet whose bulk call fails
and whose single per-item attempt dies with a timeout produces exactly
one outbound per-item call for it — not the two or more attempts (initial
try plus up to 2 retries with 3s/2s backoff) the claim requires for
transient failures; the item is simply recorded failed
(src/pan115_manager.py lines 545-587 contain no retry loop, no backoff,
and no authentication-error branch). -/
theorem individual_submission_no_retry_counterexample :
    (callPayloads (submit_batch_magnets timeout_offline 50 2000 [magnet_t]).trace).count
        (Payload.item magnet_t) = 1 ∧
      (submit_batch_magnets timeout_offline 50 2000 [magnet_t]).failed_count = 1 ∧
      (submit_batch_magnets timeout_offline 50 2000 [magnet_t]).failed_details =
        [(magnet_t, "Read timed out")] ∧
      ¬ 2 ≤ (callPayloads (submit_batch_magnets timeout_offline 50 2000 [magnet_t]).trace).count
          (Payload.item magnet_t) := by
  refine ⟨?_, ?_, ?_, ?_⟩ <;> decide

/-- C5 (amended): in the per-item fallback with no raising call, the
outbound calls start at instants `t, t + interval, t + 2·interval, …`:
the only pacing is the `time.sleep(request_interval)` that follows each
call (nothing sleeps before a call, so the first call happens
immediately), the spacing is exactly the configured value with no 0.5 s
floor, and there is no rate-limiter object shared between callers. -/
theorem individual_submission_call_spacing (itemAdd : String → AddOutcome)
    (interval : ℕ) (items : List String)
    (hok : ∀ m ∈ items, ∀ msg, itemAdd m ≠ AddOutcome.raiseErr msg) (t : ℕ) :
    callTimes (submit_magnets_individually itemAdd interval items).trace t =
      (List.range items.length).map (fun k => t + k * interval) := by
  induction items generalizing t with
  | nil => rfl
  | cons m rest ih =>
    have hrest : ∀ x ∈ rest, ∀ msg, itemAdd x ≠ AddOutcome.raiseErr msg :=
      fun x hx => hok x (List.mem_cons_of_mem m hx)
    have step : ∀ tr t0, callTimes (SubmitEvent.call (Payload.item m) ::
        SubmitEvent.sleepFor interval :: tr) t0 = t0 :: callTimes tr (t0 + interval) :=
      fun tr t0 => rfl
    rcases h : itemAdd m with _ | msg | msg
    · simp only [submit_magnets_individually, h, step, ih hrest (t + interval),
        List.length_cons, List.range_succ_eq_map, List.map_cons, List.map_map]
      refine congrArg₂ List.cons (by omega) ?_
      refine List.map_congr_left (fun k _ => ?_)
      show t + interval + k * interval = t + (k + 1) * interval
      ring
    · simp only [submit_magnets_individually, h, step, ih hrest (t + interval),
        List.length_cons, List.range_succ_eq_map, List.map_cons, List.map_map]
      refine congrArg₂ List.cons (by omega) ?_
      refine List.map_congr_left (fun k _ => ?_)
      show t + interval + k * interval = t + (k + 1) * interval
      ring
    · exact absurd h (hok m (List.mem_cons_self m rest) msg)

/-- C5 witness: two items at the default 2-second interval (in ms) are
called at instants 0 and 2000. -/
theorem individual_submission_call_spacing_witness :
    callTimes (submit_magnets_individually (fun _ => AddOutcome.ok) 2000
        ["magnet:?xt=a", "magnet:?xt=b"]).trace 0 = [0, 2000] := by
  rw [individual_submission_call_spacing (fun _ => AddOutcome.ok) 2000
    ["magnet:?xt=a", "magnet:?xt=b"]
    (fun m _ msg h => AddOutcome.noConfusion h) 0]
  decide

/-- Endpoint behaviour for the C5 counterexample: the bulk call reports a
falsy `state`, every per-item call succeeds. -/
def bulk_fail_offline : Offline :=
  ⟨fun _ => AddOutcome.fail "批量提交失败", fun _ => AddOutcome.ok⟩

/-- C5 counterexample: with `request_interval` configured to 0 (smaller
than the claimed 0.5 s floor, i.e. 500 in the millisecond reading), a run
over two valid magnets whose bulk call fails issues its three outbound
calls (one bulk, two per-item) all at instant 0: consecutive calls are 0
apart, not at least 500 — no floor exists, no wait precedes any call, and
sleeps only follow calls (src/pan115_manager.py lines 507-509, 573-574
call `time.sleep(self.config.get('request_interval', 2))` with no lower
bound and no limiter object). -/
theorem rate_floor_counterexample :
    callTimes (submit_batch_magnets bulk_fail_offline 50 0
        ["magnet:?xt=a", "magnet:?xt=b"]).trace 0 = [0, 0, 0] ∧
      (0 : ℕ) < 500 := by
  refine ⟨?_, ?_⟩ <;> decide

/-! ## Success-record log and deduplication (src/pan115_manager.py)

`_save_success_record` appends one tab-separated line per successfully
submitted magnet; `_load_processed_magnets` re-reads the log (scope
`all`) or primes the set from the current CSV column (scope `current`);
`process_csv_file` filters the column against the loaded set before
submitting. -/

/-- The tab-separated line (timestamp, display name, magnet link, then a newline) written by
`Pan115Manager._save_success_record` (lines 966-974), without its
trailing newline (the log is modelled as a list of lines; `name` stands
for the `_get_magnet_name` display label). -/
def save_success_line (ts name link : String) : String :=
  ts ++ "\t" ++ name ++ "\t" ++ link

/-- One iteration of the log-reading loop of `_load_processed_magnets`
(lines 1004-1009): `parts = line.strip().split('\t')`, and the third
part is kept when there are at least three. -/
def parse_success_line (line : String) : Option String :=
  if 3 ≤ (splitOnChar '\t' (pyStrip line.data)).length then
    ((splitOnChar '\t' (pyStrip line.data)).get? 2).map (fun l => (⟨l⟩ : String))
  else none

/-- Model of `Pan115Manager._load_processed_magnets` in `all` scope: the set of
third fields of the well-formed lines of the success-record file. -/
def load_processed_magnets (lines : List String) : List String :=
  lines.filterMap parse_success_line

/-- Model of `Pan115Manager._load_processed_magnets` in `current` scope (lines
986-1000): the set of all values of the magnet column of the current CSV
file itself (`set(df[magnet_column].dropna().astype(str).tolist())`). -/
def load_processed_current (column : List String) : List String :=
  column.dedup

/-- The extraction loop of `Pan115Manager.process_csv_file` (lines
1044-1053): each column cell is stripped; valid magnets are kept unless
dedup is on and the magnet is in the loaded set. -/
def extract_new_magnets (column : List String) (skip_dup : Bool)
    (processed : List String) : List String :=
  column.filterMap (fun m =>
    if is_valid_magnet (pyStripS m) = true ∧
        ¬ (skip_dup = true ∧ pyStripS m ∈ processed) then
      some (pyStripS m)
    else none)

/-- The result dict `process_csv_file` returns when no new valid magnet
remains after filtering (lines 1055-1057). -/
def no_new_result : SubmitResult :=
  ⟨true, 0, 0, 0, [], "CSV文件中没有找到新的有效磁力链接", [], []⟩

/-- Model of `Pan115Manager.process_csv_file` (lines 1018-1069): load the dedup
set according to `deduplication_scope` when `skip_duplicates` is on,
filter the CSV magnet column through it, and hand the survivors to
`submit_batch_magnets` (an empty survivor list returns early). -/
def process_csv_file (off : Offline) (batch_size interval : ℕ)
    (scope_current skip_dup : Bool) (history : List String)
    (column : List String) : SubmitResult :=
  if extract_new_magnets column skip_dup
      (if skip_dup then
        if scope_current then load_processed_current column
        else load_processed_magnets history
      else []) = [] then
    no_new_result
  else
    submit_batch_magnets off batch_size interval
      (extract_new_magnets column skip_dup
        (if skip_dup then
          if scope_current then load_processed_current column
          else load_processed_magnets history
        else []))

/-! ## Claim theorems on the log and deduplication -/

theorem not_mem_extract (col processed : List String) (l : String)
    (hl : l ∈ processed) : l ∉ extract_new_magnets col true processed := by
  intro hmem
  rw [extract_new_magnets, List.mem_filterMap] at hmem
  obtain ⟨m, hm, heq⟩ := hmem
  split at heq
  · next hc =>
    have hms : pyStripS m = l := Option.some.inj heq
    exact hc.2 ⟨rfl, by rw [hms]; exact hl⟩
  · exact Option.noConfusion heq

theorem parse_save_line (ts name link : String)
    (hts : '\t' ∉ ts.data) (hname : '\t' ∉ name.data) (hlink : '\t' ∉ link.data)
    (hstrip : pyStrip (save_success_line ts name link).data =
      (save_success_line ts name link).data) :
    parse_success_line (save_success_line ts name link) = some link := by
  have htab : ("\t" : String).data = ['\t'] := rfl
  have hdata : (save_success_line ts name link).data =
      ts.data ++ '\t' :: (name.data ++ '\t' :: link.data) := by
    simp [save_success_line, String.data_append, htab]
  rw [parse_success_line, hstrip, hdata,
    splitOnChar_append_sep '\t' ts.data _ hts,
    splitOnChar_append_sep '\t' name.data _ hname,
    splitOnChar_no_sep '\t' link.data hlink]
  rfl

/-- C6 (amended): any key passed to `_save_success_record` whose magnet
link and recorded display name contain no tab (and no newline: the model
treats each appended record as one line of the log) parses back out of
the durable log — a later `_load_processed_magnets` in `all` scope, in
this or any later process, yields a set containing the key — and a later
`process_csv_file` with dedup enabled filters the key out of any CSV
column, never re-submitting it.  (The tab-freedom proviso is forced by
the counterexample: the tab-separated line format does not survive keys
containing tabs.) -/
theorem mark_success_durable_dedup (log : List String) (ts name link : String)
    (col : List String)
    (hts : '\t' ∉ ts.data) (hname : '\t' ∉ name.data) (hlink : '\t' ∉ link.data)
    (hstrip : pyStrip (save_success_line ts name link).data =
      (save_success_line ts name link).data) :
    link ∈ load_processed_magnets (log ++ [save_success_line ts name link]) ∧
      link ∉ extract_new_magnets col true
        (load_processed_magnets (log ++ [save_success_line ts name link])) := by
  have hmem : link ∈ load_processed_magnets (log ++ [save_success_line ts name link]) := by
    rw [load_processed_magnets, List.filterMap_append]
    apply List.mem_append_right
    simp [parse_save_line ts name link hts hname hlink hstrip]
  exact ⟨hmem, not_mem_extract col _ link hmem⟩

/-- C6 witness: a concrete timestamped record for a tab-free magnet is
found again by the loader and skipped by the CSV filter even when the
same magnet reappears in a later CSV column. -/
theorem mark_success_durable_dedup_witness :
    "magnet:?xt=urn:btih:abcdef0123456789abcdef0123456789abcdef01" ∈
        load_processed_magnets
          [save_success_line "2024-01-01 00:00:00" "record..."
            "magnet:?xt=urn:btih:abcdef0123456789abcdef0123456789abcdef01"] ∧
      "magnet:?xt=urn:btih:abcdef0123456789abcdef0123456789abcdef01" ∉
        extract_new_magnets
          ["magnet:?xt=urn:btih:abcdef0123456789abcdef0123456789abcdef01"] true
          (load_processed_magnets
            [save_success_line "2024-01-01 00:00:00" "record..."
              "magnet:?xt=urn:btih:abcdef0123456789abcdef0123456789abcdef01"]) := by
  have h := mark_success_durable_dedup [] "2024-01-01 00:00:00" "record..."
    "magnet:?xt=urn:btih:abcdef0123456789abcdef0123456789abcdef01"
    ["magnet:?xt=urn:btih:abcdef0123456789abcdef0123456789abcdef01"]
    (by decide) (by decide) (by decide) (by decide)
  exact h

/-- C6 counterexample: the magnet link `magnet:?xt=urn:btih:ab{tab}cd`
passes `_is_valid_magnet` (so it can be submitted and recorded), yet
after `_save_success_record` writes its tab-separated line the `all`
scope loader recovers only the fragment before the tab — the recorded
key is NOT in the loaded set, refuting the claim for arbitrary keys
(the loader takes `parts[2]` of the tab-split line, here the truncated
fragment).  The display name is the `_get_magnet_name` default label for
a dn-less link. -/
theorem success_record_tab_counterexample :
    is_valid_magnet "magnet:?xt=urn:btih:ab\tcd" = true ∧
      "magnet:?xt=urn:btih:ab\tcd" ∉
        load_processed_magnets
          [save_success_line "2024-01-01 00:00:00" "磁力链接..."
            "magnet:?xt=urn:btih:ab\tcd"] := by
  refine ⟨?_, ?_⟩ <;> decide

/-- Valid magnet used in the C7 failing input. -/
def magnet_a : String := "magnet:?xt=urn:btih:aaaaaaaaaaaaaaaaaaaaaaaaaaaaaaaaaaaaaaaa"

/-- Second, distinct valid magnet used in the C7 failing input. -/
def magnet_b : String := "magnet:?xt=urn:btih:bbbbbbbbbbbbbbbbbbbbbbbbbbbbbbbbbbbbbbbb"

/-- C7 (code bug witness): with `deduplication_scope='current'` and
`skip_duplicates` on, `_load_processed_magnets` primes the dedup set with
EVERY value of the current file's magnet column, so on the column
`[a, a, b]` all three rows — first occurrences included — are filtered
out as duplicates and `process_csv_file` submits nothing, returning
`total=0, success_count=0`; the claim (and the code's own comment, which
says this scope checks for duplicates within the file) expects `a` and
`b` to be submitted once each with exactly one row flagged as the
duplicate. -/
theorem current_scope_submits_nothing (off : Offline) (batch_size interval : ℕ) :
    process_csv_file off batch_size interval true true [] [magnet_a, magnet_a, magnet_b] =
        no_new_result ∧
      (process_csv_file off batch_size interval true true []
        [magnet_a, magnet_a, magnet_b]).success_count = 0 ∧
      (process_csv_file off batch_size interval true true []
        [magnet_a, magnet_a, magnet_b]).total = 0 ∧
      extract_new_magnets [magnet_a, magnet_a, magnet_b] true
        (load_processed_current [magnet_a, magnet_a, magnet_b]) = [] := by
  exact ⟨rfl, rfl, rfl, rfl⟩

/-! ## Task manager (src/app.py)

`TaskManager` keeps the task registry; `start_crawl` is the registration
endpoint.  The registry is modelled as the list of registered tasks (the
dict values); a freshly created `CrawlTask` starts in state `PENDING`. -/

/-- Task lifecycle states of `CrawlTask.state`. -/
inductive TaskState
  | pending
  | progress
  | success
  | failure
  deriving DecidableEq, Repr

/-- Whether `TaskManager.get_running_tasks_count` counts this state:
`task.state in ['PENDING', 'PROGRESS']`. -/
def TaskState.isRunning : TaskState → Bool
  | .pending => true
  | .progress => true
  | .success => false
  | .failure => false

/-- A registered task (id plus current state). -/
structure CrawlTask where
  task_id : String
  state : TaskState
  deriving DecidableEq, Repr

/-- Model of `TaskManager.get_running_tasks_count` (src/app.py lines 60-64). -/
def get_running_tasks_count (tasks : List CrawlTask) : ℕ :=
  tasks.countP (fun t => t.state.isRunning)

/-- The capacity gate of the `start_crawl` endpoint (src/app.py lines
471-494): when `running_count >= max_concurrent_tasks` the request is
rejected with a capacity error and no task is created; otherwise a new
`PENDING` task is created and added to the registry. -/
def start_crawl (tasks : List CrawlTask) (max_concurrent_tasks : ℕ)
    (new_task_id : String) : Except String (List CrawlTask) :=
  if max_concurrent_tasks ≤ get_running_tasks_count tasks then
    Except.error "已达到最大并发任务数限制"
  else
    Except.ok (tasks ++ [⟨new_task_id, TaskState.pending⟩])

/-- C8: at capacity (`running_count = max_concurrent_tasks`), task
registration is refused with the capacity error and the registry is
untouched; once one running task transitions to a terminal state the
running count drops below the ceiling and the next registration is
accepted, appending a fresh `PENDING` task. -/
theorem start_crawl_capacity_gate (pre post : List CrawlTask) (t t2 : CrawlTask)
    (maxC : ℕ) (id1 id2 : String)
    (hrun : t.state.isRunning = true) (hterm : t2.state.isRunning = false)
    (hfull : get_running_tasks_count (pre ++ t :: post) = maxC) (hpos : 0 < maxC) :
    start_crawl (pre ++ t :: post) maxC id1 =
        Except.error "已达到最大并发任务数限制" ∧
      get_running_tasks_count (pre ++ t2 :: post) = maxC - 1 ∧
      start_crawl (pre ++ t2 :: post) maxC id2 =
        Except.ok ((pre ++ t2 :: post) ++ [⟨id2, TaskState.pending⟩]) := by
  have h1 : get_running_tasks_count (pre ++ t :: post) =
      get_running_tasks_count pre + get_running_tasks_count post + 1 := by
    unfold get_running_tasks_count
    rw [List.countP_append, List.countP_cons]
    simp [hrun]
    omega
  have h2 : get_running_tasks_count (pre ++ t2 :: post) =
      get_running_tasks_count pre + get_running_tasks_count post := by
    unfold get_running_tasks_count
    rw [List.countP_append, List.countP_cons]
    simp [hterm]
  refine ⟨?_, by omega, ?_⟩
  · rw [start_crawl, if_pos (by omega)]
  · rw [start_crawl, if_neg (by omega)]

/-- C8 witness: with ceiling 1 and one `PROGRESS` task the registration
is refused; after that task reaches `SUCCESS` the count is 0 and the
next registration is accepted. -/
theorem start_crawl_capacity_gate_witness :
    start_crawl [⟨"task_1", TaskState.progress⟩] 1 "task_2" =
        Except.error "已达到最大并发任务数限制" ∧
      get_running_tasks_count [⟨"task_1", TaskState.success⟩] = 1 - 1 ∧
      start_crawl [⟨"task_1", TaskState.success⟩] 1 "task_3" =
        Except.ok [⟨"task_1", TaskState.success⟩, ⟨"task_3", TaskState.pending⟩] := by
  have h := start_crawl_capacity_gate [] [] ⟨"task_1", TaskState.progress⟩
    ⟨"task_1", TaskState.success⟩ 1 "task_2" "task_3"
    (by decide) (by decide) (by decide) (by decide)
  exact h

end MagnetApp
